import Mathlib

/-!
Shallow embedding of the convergence pipeline of the Refactoring-Swarm
repository: the orchestrator loop (src/orchestrator/swarm_orchestrator.py),
the fixer agent's local gates and retry loop (src/agents/fixer_agent.py),
and the pytest runner wrapper (src/tools/test_runner.py).

Python strings are modelled as Lean strings, Python ints as Nat/Int,
float arithmetic on test rates as exact rational arithmetic, and the
Python `ast` module as an abstract parse outcome paired with the text
(a `PyCode` carries its text together with the function-definition tree
that `ast.parse` would return, or `none` on a syntax error).
External collaborators (the LLM, pytest) are modelled as environment
functions supplied to the embedded code.
-/

namespace Swarm

/-! ## Python string primitives used by the source -/

/-- Characters stripped by Python str.rstrip and str.strip with no
arguments (ASCII whitespace as used by the repository's inputs). -/
def pyWhitespace (c : Char) : Bool :=
  c = ' ' || c = '\t' || c = '\n' || c = '\r' || c = '\x0b' || c = '\x0c'

/-- Python str.rstrip(): drop trailing whitespace characters. -/
def pyRstrip (s : String) : String :=
  ⟨(s.data.reverse.dropWhile pyWhitespace).reverse⟩

/-- Python str.lstrip(): drop leading whitespace characters. -/
def pyLstrip (s : String) : String :=
  ⟨s.data.dropWhile pyWhitespace⟩

/-- Python str.strip(). -/
def pyStrip (s : String) : String := pyRstrip (pyLstrip s)

/-- Python substring test over char lists: needle occurs somewhere in hay. -/
def listContainsSub (needle : List Char) : List Char → Bool
  | [] => needle.isEmpty
  | c :: rest => needle.isPrefixOf (c :: rest) || listContainsSub needle rest

/-- Python `needle in hay` on strings. -/
def strContainsSub (hay needle : String) : Bool :=
  listContainsSub needle.data hay.data

/-- Python str.lower() (ASCII, which is all the source compares). -/
def pyLower (s : String) : String := String.mk (s.data.map Char.toLower)

/-- Python str.startswith. -/
def pyStartsWith (s p : String) : Bool := p.data.isPrefixOf s.data

/-- Python str.endswith. -/
def pyEndsWith (s p : String) : Bool := p.data.reverse.isPrefixOf s.data.reverse

/-! ## Validation report and `RefactoringSwarm._evaluate_success`
(src/orchestrator/swarm_orchestrator.py lines 156-191) -/

/-- The validation dict produced by JudgeAgent.validate and consumed by
the orchestrator: only the keys the orchestrator reads are modelled. -/
structure ValidationReport where
  gate_failed : Option String
  tests_passed : ℕ
  tests_total : ℕ
  tests_failed : ℕ
  deriving Repr, DecidableEq

/-- Python int() applied to a rational: truncation toward zero. -/
def pyInt (q : ℚ) : ℤ :=
  if q < 0 then -⌊-q⌋ else ⌊q⌋

/-- The reason string returned by `_evaluate_success`, modelled
structurally: each constructor stands for one of the four French format
strings of the source, carrying the numeric data interpolated into it. -/
inductive EvalReason where
  /-- "Erreurs de syntaxe detectees" -/
  | syntaxErrors
  /-- "Aucun test disponible (validation impossible)" — warning, not failure -/
  | noTestsAvailable
  /-- success string citing the rate and the threshold -/
  | thresholdMet (rate threshold : ℚ)
  /-- failure string citing the rate and the number of further tests needed -/
  | thresholdNotMet (rate threshold : ℚ) (testsNeeded : ℤ)
  deriving Repr, DecidableEq

/-- `RefactoringSwarm._evaluate_success`: syntax gate failure is an
automatic failure; zero tests is a success with a warning; otherwise the
pass rate is compared against the configured threshold. -/
def evaluateSuccess (threshold : ℚ) (v : ValidationReport) : Bool × EvalReason :=
  if v.gate_failed = some "syntax" then
    (false, .syntaxErrors)
  else if v.tests_total = 0 then
    (true, .noTestsAvailable)
  else
    let rate : ℚ := (v.tests_passed : ℚ) / (v.tests_total : ℚ)
    if threshold ≤ rate then
      (true, .thresholdMet rate threshold)
    else
      (false, .thresholdNotMet rate threshold
        (pyInt (threshold * (v.tests_total : ℚ)) - (v.tests_passed : ℤ)))

/-! ## File discovery and the orchestrator run loop
(src/tools/file_manager.py `list_python_files`,
src/orchestrator/swarm_orchestrator.py `RefactoringSwarm.run`,
`_cleanup_test_directory`) -/

/-- A file on disk as seen by pathlib: its full path and its base name. -/
structure PyFile where
  path : String
  name : String
  deriving Repr, DecidableEq

/-- The target directory: the Python files outside the tests subdirectory,
and the contents of the tests subdirectory when it exists. -/
structure TargetDir where
  srcFiles : List PyFile
  testsDir : Option (List PyFile)
  deriving Repr, DecidableEq

/-- `list_python_files`: every .py file under the directory, excluding
paths containing a pycache segment and files whose name starts with a
generated-test marker. -/
def listPythonFiles (d : TargetDir) : List String :=
  ((d.srcFiles ++ d.testsDir.getD []).filter
    (fun f => !(strContainsSub f.path "__pycache__") && !(pyStartsWith f.name "test_"))).map
    (fun f => f.path)

/-- `RefactoringSwarm._cleanup_test_directory`: if the tests subdirectory
exists, shutil.rmtree it; a deletion failure is printed and swallowed. -/
def cleanupTestDirectory (rmtreeOk : Bool) (d : TargetDir) : TargetDir :=
  match d.testsDir with
  | some _ => if rmtreeOk then { d with testsDir := none } else d
  | none => d

/-- The external collaborators of one run, abstracted: whether rmtree on
the tests directory succeeds, the bugs_fixed count the fix phase reports
in iteration i, and the validation report the judge returns in iteration i. -/
structure OrchEnv where
  rmtreeOk : Bool
  fixBugs : ℕ → ℕ
  validation : ℕ → ValidationReport

/-- The reason/error string of the final run report, modelled structurally. -/
inductive RunReason where
  /-- "Aucun fichier Python trouve" -/
  | noPythonFiles
  /-- immediate success: all tests validated before the iteration limit -/
  | allTestsPassed
  /-- the reason produced by `_evaluate_success` on the final iteration -/
  | eval (r : EvalReason)
  /-- "Erreur inconnue" default after the loop -/
  | unknownError
  deriving Repr, DecidableEq

/-- The dict returned by `RefactoringSwarm.run`. -/
structure RunReport where
  success : Bool
  reason : RunReason
  iterations_used : ℕ
  files_processed : ℕ
  bugs_fixed : ℕ
  tests_passed : ℕ
  total_tests : ℕ
  success_rate : ℚ
  threshold : ℚ
  deriving Repr, DecidableEq

/-- The body of the orchestrator's for-loop over iterations 1..maxIterations,
with fuel counting the iterations still allowed (fuel + iter = maxIterations + 1
at every call from `run`).  Each iteration runs the fix phase, then the
validation phase; it returns immediately with success when all tests pass,
evaluates the threshold on the final allowed iteration, and otherwise
recurses; exhausting the loop yields the unknown-error default report. -/
def runLoop (threshold : ℚ) (maxIterations : ℕ) (env : OrchEnv) (nfiles : ℕ) :
    ℕ → ℕ → ℕ → RunReport
  | 0, _, bugs =>
      { success := false, reason := .unknownError, iterations_used := maxIterations,
        files_processed := nfiles, bugs_fixed := bugs, tests_passed := 0,
        total_tests := 0, success_rate := 0, threshold := threshold }
  | fuel + 1, iter, bugs0 =>
      let bugs := bugs0 + env.fixBugs iter
      let v := env.validation iter
      let rate : ℚ :=
        if 0 < v.tests_total then (v.tests_passed : ℚ) / (v.tests_total : ℚ) else 0
      if 0 < v.tests_total ∧ v.tests_passed = v.tests_total then
        { success := true, reason := .allTestsPassed, iterations_used := iter,
          files_processed := nfiles, bugs_fixed := bugs, tests_passed := v.tests_passed,
          total_tests := v.tests_total, success_rate := rate, threshold := threshold }
      else if iter = maxIterations then
        { success := (evaluateSuccess threshold v).1,
          reason := .eval (evaluateSuccess threshold v).2, iterations_used := iter,
          files_processed := nfiles, bugs_fixed := bugs, tests_passed := v.tests_passed,
          total_tests := v.tests_total, success_rate := rate, threshold := threshold }
      else
        runLoop threshold maxIterations env nfiles fuel (iter + 1) bugs

/-- The result of one run: the report, the files discovered after the
tests-directory cleanup, and the files backed up before the first mutation. -/
structure RunResult where
  report : RunReport
  discovered : List String
  backedUp : List String
  deriving Repr, DecidableEq

/-- `RefactoringSwarm.run`: clean the tests directory, discover files,
fail early when none are found, back up every discovered file (per-file
backup failures are swallowed), run audit and test generation (abstracted
into the environment), then the iteration loop. -/
def run (threshold : ℚ) (maxIterations : ℕ) (env : OrchEnv) (d : TargetDir) :
    RunResult :=
  let d1 := cleanupTestDirectory env.rmtreeOk d
  let files := listPythonFiles d1
  if files = [] then
    { report :=
        { success := false, reason := .noPythonFiles, iterations_used := 0,
          files_processed := 0, bugs_fixed := 0, tests_passed := 0, total_tests := 0,
          success_rate := 0, threshold := threshold },
      discovered := files, backedUp := [] }
  else
    { report := runLoop threshold maxIterations env files.length maxIterations 1 0,
      discovered := files, backedUp := files }

/-- A sample run environment for exercising the orchestrator: the first
iteration passes all tests. -/
def sampleEnvFirstPass : OrchEnv where
  rmtreeOk := true
  fixBugs := fun _ => 1
  validation := fun i => if i = 1 then ⟨none, 1, 1, 0⟩ else ⟨none, 0, 1, 1⟩

/-- A sample directory with one source file. -/
def sampleDirOneFile : TargetDir := ⟨[⟨"calc.py", "calc.py"⟩], none⟩

/-- A sample run environment in which validation always fails one test. -/
def sampleEnvAlwaysFail : OrchEnv where
  rmtreeOk := true
  fixBugs := fun _ => 0
  validation := fun _ => ⟨none, 0, 1, 1⟩

/-- A sample directory with one source file and a pre-existing tests
subdirectory holding one old test file. -/
def sampleDirWithTests : TargetDir :=
  ⟨[⟨"calc.py", "calc.py"⟩], some [⟨"tests/old.py", "old.py"⟩]⟩

/-- The immediate-success condition of the orchestrator loop:
tests exist and every one of them passed. -/
def allTestsPass (v : ValidationReport) : Prop :=
  0 < v.tests_total ∧ v.tests_passed = v.tests_total

instance (v : ValidationReport) : Decidable (allTestsPass v) := by
  unfold allTestsPass; infer_instance

/-! ## Python AST model and the FixerAgent gates
(src/agents/fixer_agent.py) -/

/-- A function definition as the ast module reports it: name, ordered
positional parameter names (node.args.args), extracted default-value
constants, line number, and the function definitions nested anywhere
inside its body (ast.walk descends into them). -/
inductive PyFunc : Type where
  | mk (name : String) (params : List String) (defaults : List (Option String))
      (lineno : ℕ) (nested : List PyFunc)

def PyFunc.name : PyFunc → String
  | .mk n _ _ _ _ => n

def PyFunc.params : PyFunc → List String
  | .mk _ p _ _ _ => p

def PyFunc.defaults : PyFunc → List (Option String)
  | .mk _ _ d _ _ => d

def PyFunc.lineno : PyFunc → ℕ
  | .mk _ _ _ l _ => l

def PyFunc.nested : PyFunc → List PyFunc
  | .mk _ _ _ _ c => c

mutual

/-- ast.walk restricted to function-definition nodes: the node itself and
every definition nested below it.  (ast.walk visits breadth-first; the
traversal here is depth-first, which yields the same collection of
definitions — none of the properties proved below depend on visit order.) -/
def PyFunc.walk : PyFunc → List PyFunc
  | .mk n p d l cs => .mk n p d l cs :: PyFunc.walkList cs

/-- ast.walk over a list of sibling definitions. -/
def PyFunc.walkList : List PyFunc → List PyFunc
  | [] => []
  | f :: fs => PyFunc.walk f ++ PyFunc.walkList fs

end

/-- A Python source text paired with its ast.parse outcome: the module's
top-level function definitions when the text parses, none on SyntaxError.
(compile() and ast.parse succeed and fail together on the inputs the
fixer handles.) -/
structure PyCode where
  text : String
  parse : Option (List PyFunc)

/-- A signature dict value in `_extract_function_signatures`. -/
structure FuncSig where
  params : List String
  defaults : List (Option String)
  line : ℕ
  deriving Repr, DecidableEq

/-- Python dict assignment d[k] = v: replace an existing binding in place,
else append, preserving insertion order. -/
def dictInsert (d : List (String × FuncSig)) (k : String) (v : FuncSig) :
    List (String × FuncSig) :=
  if d.any (fun kv => kv.1 = k) then
    d.map (fun kv => if kv.1 = k then (k, v) else kv)
  else d ++ [(k, v)]

/-- Python dict lookup: the value bound to k, if any. -/
def dictFind (d : List (String × FuncSig)) (k : String) : Option FuncSig :=
  (d.find? (fun kv => kv.1 = k)).map (fun kv => kv.2)

/-- `FixerAgent._extract_function_signatures`: walk the tree and build the
name-to-signature dict; a parse failure is caught and yields the empty dict. -/
def extractFunctionSignatures (c : PyCode) : List (String × FuncSig) :=
  match c.parse with
  | none => []
  | some m =>
      (PyFunc.walkList m).foldl
        (fun d f => dictInsert d f.name ⟨f.params, f.defaults, f.lineno⟩) []

/-- One word character of the regex class used by the fixer. -/
def isWordChar (c : Char) : Bool := c.isAlphanum || c = '_'

/-- The MULTILINE regex fallback of `_get_function_list_from_code`: a line
consisting of leading whitespace, the def keyword, whitespace, a name
starting with a letter or underscore, optional blanks, and an opening
parenthesis, captured per line. -/
def regexDefNames (code : String) : List String :=
  (code.splitOn "\n").filterMap (fun line =>
    let l := line.data.dropWhile pyWhitespace
    if ['d', 'e', 'f'].isPrefixOf l then
      let r := l.drop 3
      match r with
      | [] => none
      | c :: _ =>
        if pyWhitespace c then
          let r2 := r.dropWhile pyWhitespace
          match r2 with
          | [] => none
          | c2 :: _ =>
            if c2.isAlpha || c2 = '_' then
              let nm := r2.takeWhile isWordChar
              let rest := (r2.dropWhile isWordChar).dropWhile
                (fun ch => ch = ' ' || ch = '\t')
              match rest with
              | '(' :: _ => some (String.mk nm)
              | _ => none
            else none
        else none
    else none)

/-- `FixerAgent._get_function_list_from_code`: the names of every
non-underscore-prefixed function definition found by ast.walk; when the
code does not parse, the regex fallback over the raw text (which applies
no underscore filter). -/
def getFunctionListFromCode (c : PyCode) : List String :=
  match c.parse with
  | some m =>
      (PyFunc.walkList m).filterMap
        (fun f => if pyStartsWith f.name "_" then none else some f.name)
  | none => regexDefNames c.text

/-- One loop body of `_validate_signatures_preserved`: the violation
messages contributed by one original function — skipped when private,
one message when absent from the candidate signatures, one message when
its parameter list changed. -/
def signatureViolation1 (fixedSigs : List (String × FuncSig))
    (kv : String × FuncSig) : List String :=
  if pyStartsWith kv.1 "_" then []
  else
    match dictFind fixedSigs kv.1 with
    | none => ["Function " ++ kv.1 ++ " was removed or renamed!"]
    | some s =>
        if kv.2.params ≠ s.params then
          ["Function " ++ kv.1 ++ ": parameters changed"]
        else []

/-- The violation messages of `_validate_signatures_preserved`: the
for-loop appending to a list is rendered as the concatenation of each
item's contribution, in iteration order. -/
def signatureViolations (origSigs fixedSigs : List (String × FuncSig)) :
    List String :=
  origSigs.flatMap (signatureViolation1 fixedSigs)

/-- `FixerAgent._validate_signatures_preserved`. -/
def validateSignaturesPreserved (originalCode fixedCode : PyCode) :
    Bool × List String :=
  let v := signatureViolations (extractFunctionSignatures originalCode)
    (extractFunctionSignatures fixedCode)
  (v.isEmpty, v)

/-- The dangling-ending blacklist of `_validate_code_completeness`. -/
def suspiciousEndings : List String :=
  ["# ", "def ", "class ", "import ", "from ", "if ", "for ", "while ",
    "=", "+", "-", "*"]

/-- `FixerAgent._validate_code_completeness`: reject when the stripped
text ends with a blacklisted token, is shorter than 50 characters, has
fewer (non-private) function definitions than the original, or fails to
compile. -/
def validateCodeCompleteness (code originalCode : PyCode) : Bool :=
  let codeStripped := pyRstrip code.text
  if suspiciousEndings.any (fun e => pyEndsWith codeStripped e) then false
  else if codeStripped.length < 50 then false
  else
    let originalFuncs := getFunctionListFromCode originalCode
    let generatedFuncs := getFunctionListFromCode code
    if generatedFuncs.length < originalFuncs.length then false
    else
      match code.parse with
      | none => false
      | some _ => true

/-- `FixerAgent._validate_python_syntax`. -/
def validatePythonSyntax (c : PyCode) : Bool × String :=
  match c.parse with
  | some _ => (true, "")
  | none => (false, "SyntaxError")

/-! ## The failure classifier `FixerAgent._analyze_test_errors_deeply` -/

/-- One entry of the error_logs list handed to the fixer. -/
structure ErrorLog where
  test : String
  message : String
  traceback : String
  deriving Repr, DecidableEq

/-- The category line the classifier appends for one failure record. -/
inductive ErrorCategory where
  | wrongExceptionType (expected raised : String)
  | missingException (expected : String)
  | assertionFailure
  | importError
  | unknown
  deriving Repr, DecidableEq

/-- The target-function extraction: re.match of the test_ marker followed
by one or more word characters, defaulting to unknown. -/
def extractTargetFunction (testName : String) : String :=
  if pyStartsWith testName "test_" then
    let captured := (testName.data.drop 5).takeWhile isWordChar
    if captured.isEmpty then "unknown" else String.mk captured
  else "unknown"

/-- Regex search for the pytest.raises pattern — the literal text, an
opening parenthesis, a captured word, a closing parenthesis — at every
position of the input, matching the literal case-insensitively when ci is
set, returning the captured exception name. -/
def searchPytestRaises (ci : Bool) : List Char → Option String
  | [] => none
  | c :: rest =>
      let s := c :: rest
      let lit := "with pytest.raises(".data
      let here := if ci then lit.isPrefixOf (s.map Char.toLower) else lit.isPrefixOf s
      let attempt : Option String :=
        if here then
          let after := s.drop lit.length
          let captured := after.takeWhile isWordChar
          if captured.isEmpty then none
          else
            match after.drop captured.length with
            | ')' :: _ => some (String.mk captured)
            | _ => none
        else none
      match attempt with
      | some r => some r
      | none => searchPytestRaises ci rest

/-- The exception names the classifier looks for in the diagnostic text. -/
def knownExceptionTypes : List String :=
  ["ValueError", "ZeroDivisionError", "TypeError", "KeyError", "IndexError",
    "AttributeError"]

/-- The raised-exception detection: the first known exception type whose
lowercase name occurs in the (already lowercased) combined diagnostic. -/
def findRaisedException (combinedError : String) : Option String :=
  knownExceptionTypes.find? (fun e => strContainsSub combinedError (pyLower e))

/-- The assert / import / unknown arms of the classifier chain. -/
def classifyResidual (combinedError : String) : ErrorCategory :=
  if strContainsSub combinedError "assert" then .assertionFailure
  else if strContainsSub combinedError "import" ||
      strContainsSub combinedError "module" then .importError
  else .unknown

/-- The per-record classification of `_analyze_test_errors_deeply`: the
category line appended to the analysis for one failure record, or none
when no category line is emitted at all.  The entire chain — including the
assert, import and unknown arms, which are elif branches of the inner
conditional in the source — is guarded by the pytest.raises membership
test on the traceback. -/
def classifyTestError (e : ErrorLog) : Option ErrorCategory :=
  let combinedError := pyLower (e.message ++ " " ++ e.traceback)
  if strContainsSub (pyLower e.traceback) "with pytest.raises" then
    let expectedExc := searchPytestRaises true e.traceback.data
    let raisedExc := findRaisedException combinedError
    match expectedExc, raisedExc with
    | some ex, some ra =>
        if pyLower ex ≠ pyLower ra then some (.wrongExceptionType ex ra)
        else some (classifyResidual combinedError)
    | some ex, none => some (.missingException ex)
    | none, _ => some (classifyResidual combinedError)
  else none

/-! ## The per-file retry loop of `FixerAgent.fix` -/

/-- The outcome of one attempt's Oracle call: the LLM call (or the
handling of its response) raised, or it produced a cleaned candidate. -/
inductive OracleOutcome where
  | raised
  | ok (candidate : PyCode)

/-- What one attempt of the retry loop does after its gates run:
move on to the next attempt, end the loop without writing, or write a
final candidate (accepted marks the all-gates-passed path, as opposed to
the fallback write of the original). -/
inductive AttemptStep where
  | retry
  | noWrite
  | write (c : PyCode) (accepted : Bool)

/-- The body of one attempt of the retry loop in `FixerAgent.fix`
(given the Oracle outcome and whether this is the final attempt):
completeness gate, then syntax gate, then signature gate, with the
source's fallback-to-original and break behaviour on the final attempt. -/
def fixAttempt (originalCode : PyCode) (out : OracleOutcome) (isLast : Bool) :
    AttemptStep :=
  match out with
  | .raised => if isLast then .noWrite else .retry
  | .ok cand =>
      if validateCodeCompleteness cand originalCode = false then
        if isLast = false then .retry
        else
          -- corrected_code = original_code; the remaining gates now run on it
          if (validatePythonSyntax originalCode).1 = false then .noWrite
          else if (validateSignaturesPreserved originalCode originalCode).1 = false then
            .write originalCode false
          else .write originalCode false
      else if (validatePythonSyntax cand).1 = false then
        if isLast = false then .retry else .noWrite
      else if (validateSignaturesPreserved originalCode cand).1 = false then
        if isLast = false then .retry else .write originalCode false
      else .write cand true

/-- The outcome of the whole retry loop for one file: the single write it
performed (if any), the number of Oracle calls it made, and the attempt
index whose candidate passed every gate (if any). -/
structure FixFileResult where
  written : Option PyCode
  oracleCalls : ℕ
  acceptedAttempt : Option ℕ

/-- The retry loop over attempts, with fuel counting the attempts still
allowed (fuel = maxRetries + 1 - attempt at every reachable call). -/
def fixFileAux (originalCode : PyCode) (oracle : ℕ → OracleOutcome)
    (maxRetries : ℕ) : ℕ → ℕ → FixFileResult
  | 0, _ => { written := none, oracleCalls := 0, acceptedAttempt := none }
  | fuel + 1, attempt =>
      let isLast := maxRetries ≤ attempt
      match fixAttempt originalCode (oracle attempt) isLast with
      | .retry =>
          let r := fixFileAux originalCode oracle maxRetries fuel (attempt + 1)
          { r with oracleCalls := r.oracleCalls + 1 }
      | .noWrite => { written := none, oracleCalls := 1, acceptedAttempt := none }
      | .write c accepted =>
          { written := some c, oracleCalls := 1,
            acceptedAttempt := if accepted then some attempt else none }

/-- The retry loop of `FixerAgent.fix` for one file: attempts 0 through
maxRetries. -/
def fixFile (originalCode : PyCode) (oracle : ℕ → OracleOutcome)
    (maxRetries : ℕ) : FixFileResult :=
  fixFileAux originalCode oracle maxRetries (maxRetries + 1) 0

/-- The file content on disk after the loop, given its pre-iteration
content: the written candidate if a write happened, else the untouched
pre-iteration content. -/
def fixFinalContent (originalCode : PyCode) (r : FixFileResult) : PyCode :=
  match r.written with
  | some c => c
  | none => originalCode

/-! ## The per-plan aggregation of `FixerAgent.fix` -/

/-- One entry of the plan's issues list: a file and its findings
(modelled by their description strings — only their count feeds the
aggregate result). -/
structure FileIssue where
  file : String
  issues : List String

/-- The refactoring plan consumed by `FixerAgent.fix`. -/
structure FixPlan where
  issues : List FileIssue

/-- The dict returned by `FixerAgent.fix`. -/
structure FixResult where
  files_modified : List String
  bugs_fixed : ℕ
  deriving Repr, DecidableEq

/-- One plan-entry step of `FixerAgent.fix`: skip entries with no path or
no findings, skip unreadable files (the read exception is printed and
swallowed), run the retry loop, and — exactly when a final write
happened — append the file to files_modified and add its issue count to
bugs_fixed. -/
def fixerFixStep (readFile : String → Option PyCode)
    (oracle : String → ℕ → OracleOutcome) (maxRetries : ℕ)
    (acc : FixResult) (fi : FileIssue) : FixResult :=
  if fi.file = "" ∨ fi.issues = [] then acc
  else
    match readFile fi.file with
    | none => acc
    | some originalCode =>
        match (fixFile originalCode (oracle fi.file) maxRetries).written with
        | some _ =>
            { files_modified := acc.files_modified ++ [fi.file],
              bugs_fixed := acc.bugs_fixed + fi.issues.length }
        | none => acc

/-- `FixerAgent.fix` over the whole plan. -/
def fixerFix (plan : FixPlan) (readFile : String → Option PyCode)
    (oracle : String → ℕ → OracleOutcome) (maxRetries : ℕ) : FixResult :=
  plan.issues.foldl (fixerFixStep readFile oracle maxRetries)
    { files_modified := [], bugs_fixed := 0 }

/-- Whether `FixerAgent.fix` performs a final write for one plan entry:
the entry has a path and findings, its file is readable, and the retry
loop ends in a write (an accepted candidate or the fallback original). -/
def fileWritten (readFile : String → Option PyCode)
    (oracle : String → ℕ → OracleOutcome) (maxRetries : ℕ)
    (fi : FileIssue) : Bool :=
  if fi.file = "" ∨ fi.issues = [] then false
  else
    match readFile fi.file with
    | none => false
    | some originalCode =>
        (fixFile originalCode (oracle fi.file) maxRetries).written.isSome

/-! ## The pytest wrapper `run_pytest_on_directory`
(src/tools/test_runner.py) -/

/-- Python str.upper() (ASCII). -/
def pyUpper (s : String) : String := String.mk (s.data.map Char.toUpper)

/-- Python int(): optional surrounding whitespace, optional sign, one or
more digits; anything else raises (modelled as none). -/
def pyIntParse (s : String) : Option ℤ :=
  let l := (pyStrip s).data
  let (neg, digits) :=
    match l with
    | '-' :: rest => (true, rest)
    | '+' :: rest => (false, rest)
    | _ => (false, l)
  if digits.isEmpty || digits.any (fun c => !c.isDigit) then none
  else
    let n := digits.foldl (fun acc c => acc * 10 + (c.toNat - '0'.toNat)) 0
    some (if neg then -(n : ℤ) else (n : ℤ))

/-- Regex search for the expected-exception pattern of
`_clean_error_message` — the word Expected matched case-insensitively,
whitespace, a captured word — at every position of the input. -/
def searchExpectedException : List Char → Option String
  | [] => none
  | c :: rest =>
      let s := c :: rest
      let lit := "expected".data
      let attempt : Option String :=
        if lit.isPrefixOf (s.map Char.toLower) then
          let after := s.drop lit.length
          let ws := after.takeWhile pyWhitespace
          if ws.isEmpty then none
          else
            let captured := (after.drop ws.length).takeWhile isWordChar
            if captured.isEmpty then none else some (String.mk captured)
        else none
      match attempt with
      | some r => some r
      | none => searchExpectedException rest

/-- Regex search for the DID NOT RAISE class pattern of
`_clean_error_message`: the literal, a captured word, the closing quote
and bracket. -/
def searchDidNotRaiseClass : List Char → Option String
  | [] => none
  | c :: rest =>
      let s := c :: rest
      let lit := "DID NOT RAISE <class \x27".data
      let attempt : Option String :=
        if lit.isPrefixOf s then
          let after := s.drop lit.length
          let captured := after.takeWhile isWordChar
          if captured.isEmpty then none
          else
            match after.drop captured.length with
            | '\x27' :: '>' :: _ => some (String.mk captured)
            | _ => none
        else none
      match attempt with
      | some r => some r
      | none => searchDidNotRaiseClass rest

/-- Regex search for an exception-name alternative followed by a colon,
used by `_clean_error_message` on the traceback: at each position, the
first alternative (in list order) that matches wins. -/
def searchRaisedColon : List Char → Option String
  | [] => none
  | c :: rest =>
      let s := c :: rest
      let attempt := knownExceptionTypes.find?
        (fun e => (e.data ++ [':']).isPrefixOf s)
      match attempt with
      | some r => some r
      | none => searchRaisedColon rest

/-- `_clean_error_message`: strip pytest prefixes, special-case the
did-not-raise diagnostics, and rewrite expected-versus-raised exception
mismatches found in the traceback. -/
def cleanErrorMessage (message traceback : String) : String :=
  let message := pyStrip ((message.replace "E       " "").replace "E   " "")
  if strContainsSub (pyUpper message) "DID NOT RAISE" ||
      strContainsSub message "did not raise" then
    match searchExpectedException message.data with
    | some ex => "Expected " ++ ex ++ " but no exception was raised"
    | none => "Expected exception was not raised"
  else if strContainsSub message "Failed: DID NOT RAISE" then
    -- unreachable in the source: the first branch already matched
    match searchDidNotRaiseClass message.data with
    | some ex =>
        "Expected " ++ ex ++ " exception but got different exception or no exception"
    | none => message
  else if traceback ≠ "" && strContainsSub traceback "with pytest.raises" then
    match searchPytestRaises false traceback.data, searchRaisedColon traceback.data with
    | some expected, some raised =>
        if expected ≠ raised then
          "Expected " ++ expected ++ " but got " ++ raised ++ " instead"
        else message
    | _, _ => message
  else message

/-- One test entry of the pytest JSON report, restricted to the keys the
wrapper reads. -/
structure PytestTestEntry where
  nodeid : String
  outcome : String
  longrepr : Option String
  crashMessage : Option String

/-- The pytest JSON report, restricted to the keys the wrapper reads. -/
structure PytestReport where
  summaryPassed : ℤ
  summaryFailed : ℤ
  summaryTotal : ℤ
  tests : List PytestTestEntry
  duration : ℚ

/-- What the pytest subprocess call did: timed out, the executable was
missing, some other exception was raised, or it completed — in which case
the JSON report file may be absent, malformed (carrying the exception
text), or parsed. -/
inductive SubprocessOutcome where
  | timeoutExpired
  | pytestExecutableMissing
  | internalError (msg : String)
  | completed (reportFile : Option (Except String PytestReport))
      (stdout stderr : String) (returncode : ℤ)

/-- One entry of the error_logs list the wrapper returns
(test_full_path is present only in some entries). -/
structure TestErrorEntry where
  test : String
  test_full_path : Option String
  message : String
  traceback : String

/-- The dict `run_pytest_on_directory` returns. -/
structure TestRunResult where
  passed_count : ℤ
  failed_count : ℤ
  total_count : ℤ
  error_logs : List TestErrorEntry
  execution_time : Option ℚ

/-- The keyword lines scanned for the principal error message. -/
def errorKeywords : List String :=
  ["AssertionError", "ValueError", "ZeroDivisionError", "TypeError", "Error"]

/-- The per-failed-test extraction of the detailed JSON branch. -/
def extractFailedLog (t : PytestTestEntry) : TestErrorEntry :=
  let test_name :=
    if strContainsSub t.nodeid "::" then
      ((t.nodeid.splitOn "::").getLast?).getD t.nodeid
    else t.nodeid
  let (message1, traceback_text) :=
    match t.longrepr with
    | some lr =>
        let lines := (pyStrip lr).splitOn "\n"
        let m :=
          match lines.find? (fun ln =>
              errorKeywords.any (fun k => strContainsSub ln k)) with
          | some ln => pyStrip ln
          | none =>
              match lines.reverse.find? (fun ln =>
                  pyStrip ln ≠ "" && !(pyStartsWith ln " ")) with
              | some ln => pyStrip ln
              | none => ""
        (m, lr)
    | none => ("", "")
  let message2 :=
    if message1 = "" then
      match t.crashMessage with
      | some cm => if cm ≠ "" then cm else message1
      | none => message1
    else message1
  let message3 :=
    if message2 = "" then "Test failed: " ++ t.outcome else message2
  let message := cleanErrorMessage message3 traceback_text
  { test := test_name, test_full_path := some t.nodeid,
    message := message.take 800, traceback := traceback_text.take 1500 }

/-- The count scan of `parse_pytest_output` for one line: walk the
whitespace-split parts; at a part containing the keyword with a
predecessor, convert the predecessor with int(); a conversion failure
raises, which the per-line handler turns into keeping the value
accumulated so far and abandoning the rest of the line. -/
def scanCountParts (keyword : String) : Option String → List String → ℤ → ℤ
  | _, [], acc => acc
  | prev, p :: rest, acc =>
      if strContainsSub p keyword then
        match prev with
        | some q =>
            match pyIntParse q with
            | some n => scanCountParts keyword (some p) rest n
            | none => acc
        | none => scanCountParts keyword (some p) rest acc
      else scanCountParts keyword (some p) rest acc

/-- Python str.split() with no argument: split on whitespace runs,
dropping empty parts. -/
def pySplitWhitespace (s : String) : List String :=
  (s.split pyWhitespace).filter (fun p => p ≠ "")

/-- The passed/failed counters extracted by `parse_pytest_output` from
the whole text output: the last successful conversion wins. -/
def scanCounts (keyword : String) (output : String) : ℤ :=
  (output.splitOn "\n").foldl
    (fun acc line =>
      if strContainsSub (pyLower line) keyword then
        scanCountParts keyword none (pySplitWhitespace line) acc
      else acc) 0

/-- One FAILED-line match attempt of the findall regex of
`parse_pytest_output` at the current position: the FAILED literal,
whitespace, a path of word/slash/colon/dot characters, a dash with
optional blanks, and the rest of the line; returns the two captures and
the characters following the match. -/
def tryMatchFailed (s : List Char) : Option (String × String × List Char) :=
  let lit := "FAILED".data
  if lit.isPrefixOf s then
    let after := s.drop lit.length
    let ws := after.takeWhile pyWhitespace
    if ws.isEmpty then none
    else
      let isPathChar := fun c => isWordChar c || c = '/' || c = ':' || c = '.'
      let rest1 := after.drop ws.length
      let path := rest1.takeWhile isPathChar
      if path.isEmpty then none
      else
        let rest2 := (rest1.drop path.length).dropWhile pyWhitespace
        match rest2 with
        | '-' :: rest3 =>
            let rest4 := rest3.dropWhile pyWhitespace
            let msg := rest4.takeWhile (fun c => c ≠ '\n')
            some (String.mk path, String.mk msg, rest4.drop msg.length)
        | _ => none
  else none

/-- findall of the FAILED-line regex: scan every position, emitting
non-overlapping matches (fuel bounds the recursion; one unit per
consumed character suffices since every step consumes at least one). -/
def findFailedMatches : ℕ → List Char → List (String × String)
  | 0, _ => []
  | _, [] => []
  | fuel + 1, c :: rest =>
      match tryMatchFailed (c :: rest) with
      | some (path, msg, remaining) => (path, msg) :: findFailedMatches fuel remaining
      | none => findFailedMatches fuel rest

/-- `parse_pytest_output`: the stdout/stderr fallback parser. -/
def parsePytestOutput (stdout stderr : String) (returncode : ℤ) : TestRunResult :=
  let output := stdout ++ "\n" ++ stderr
  let passed := scanCounts "passed" output
  let failed := scanCounts "failed" output
  if passed = 0 ∧ failed = 0 ∧ returncode = 0 then
    { passed_count := 0, failed_count := 0, total_count := 0,
      error_logs := [⟨"no_tests", none, "Aucun test trouv\xe9", ""⟩],
      execution_time := none }
  else
    let failed := if passed = 0 ∧ failed = 0 then 1 else failed
    let total := passed + failed
    let error_logs :=
      if 0 < failed then
        let failed_tests := findFailedMatches output.length output.data
        if failed_tests ≠ [] then
          failed_tests.map (fun pm =>
            let test_name :=
              if strContainsSub pm.1 "::" then
                ((pm.1.splitOn "::").getLast?).getD pm.1
              else pm.1
            ⟨test_name, some pm.1, pm.2.take 500, ""⟩)
        else
          [⟨"unknown_test", none,
            (if stderr ≠ "" then stderr.take 500 else "Tests \xe9chou\xe9s"), ""⟩]
      else []
    { passed_count := passed, failed_count := failed, total_count := total,
      error_logs := error_logs, execution_time := none }

/-- `run_pytest_on_directory`: check the directory, invoke pytest once,
and translate a timeout, a missing pytest executable, a malformed report
or any internal exception into a one-failed-test result rather than an
exception.  The second component counts the subprocess invocations made. -/
def runPytestOnDirectory (directory : String) (dirExists : Bool)
    (sub : SubprocessOutcome) (timeout : ℕ) : TestRunResult × ℕ :=
  if dirExists = false then
    ({ passed_count := 0, failed_count := 1, total_count := 1,
       error_logs := [⟨"directory_check", none,
         "Le r\xe9pertoire " ++ directory ++ " n\x27existe pas", ""⟩],
       execution_time := none }, 0)
  else
    match sub with
    | .timeoutExpired =>
        ({ passed_count := 0, failed_count := 1, total_count := 1,
           error_logs := [⟨"timeout", none,
             "Timeout apr\xe8s " ++ toString timeout ++ " secondes", ""⟩],
           execution_time := none }, 1)
    | .pytestExecutableMissing =>
        ({ passed_count := 0, failed_count := 1, total_count := 1,
           error_logs := [⟨"pytest_missing", none,
             "Pytest n\x27est pas install\xe9. Ex\xe9cutez: pip install pytest pytest-json-report",
             ""⟩],
           execution_time := none }, 1)
    | .internalError msg =>
        ({ passed_count := 0, failed_count := 1, total_count := 1,
           error_logs := [⟨"runner_error", none, "Erreur: " ++ msg, ""⟩],
           execution_time := none }, 1)
    | .completed reportFile stdout stderr returncode =>
        match reportFile with
        | some (.ok report) =>
            ({ passed_count := report.summaryPassed,
               failed_count := report.summaryFailed,
               total_count := report.summaryTotal,
               error_logs :=
                 (report.tests.filter (fun t => t.outcome = "failed")).map
                   extractFailedLog,
               execution_time := some report.duration }, 1)
        | some (.error e) =>
            -- json.load raised; caught by the generic exception handler
            ({ passed_count := 0, failed_count := 1, total_count := 1,
               error_logs := [⟨"runner_error", none, "Erreur: " ++ e, ""⟩],
               execution_time := none }, 1)
        | none => (parsePytestOutput stdout stderr returncode, 1)

/-! ## Concrete inputs used to exercise the fixer and the runner -/

/-- A well-formed two-parameter function definition node. -/
def addFunc : PyFunc := .mk "add" ["a", "b"] [] 1 []

/-- A parseable 52-character source for the add function. -/
def goodAddCode : PyCode :=
  { text := "def add(a, b):\n    result = a + b\n    return result\n",
    parse := some [addFunc] }

/-- An oracle whose first attempt already returns an acceptable candidate. -/
def immediateOracle : ℕ → OracleOutcome := fun _ => .ok goodAddCode

/-- A pre-iteration file content that itself fails to parse (the fixer is
routinely pointed at broken files). -/
def brokenOriginal : PyCode :=
  { text := "def broken(:\n    return x +", parse := none }

/-- A truncated candidate: it ends in a dangling assignment operator, so
the completeness gate rejects it on every attempt. -/
def truncatedCandidate : PyCode := { text := "x = ", parse := none }

/-- An oracle that returns the truncated candidate on every attempt. -/
def alwaysTruncatedOracle : ℕ → OracleOutcome := fun _ => .ok truncatedCandidate

/-- Another truncated candidate, used for the bookkeeping scenario. -/
def truncatedCandidateB : PyCode := { text := "y = ", parse := none }

/-- A plan with one file carrying two findings. -/
def onePlanTwoIssues : FixPlan :=
  ⟨[⟨"f.py", ["missing colon line 1", "wrong operator line 2"]⟩]⟩

/-- A reader serving the (parseable) original content of the planned file. -/
def readGoodAdd : String → Option PyCode :=
  fun p => if p = "f.py" then some goodAddCode else none

/-- A per-file oracle that always returns the truncated candidate. -/
def alwaysTruncatedOracleB : String → ℕ → OracleOutcome :=
  fun _ _ => .ok truncatedCandidateB

/-- A 100-character original: the add function followed by a comment bar. -/
def paddedOriginal : PyCode :=
  { text := "def add(a, b):\n    return a + b\n" ++ String.mk (List.replicate 68 '#'),
    parse := some [addFunc] }

/-- A 60-character candidate for it: same function, much shorter text. -/
def shortCandidate : PyCode :=
  { text := "def add(a, b):\n    return a + b\n" ++ String.mk (List.replicate 28 '#'),
    parse := some [addFunc] }

/-- An original with a non-private function nested inside a top-level one. -/
def nestedOriginal : PyCode :=
  { text := "def outer(x):\n    def helper():\n        return 1\n    return helper()\n",
    parse := some [.mk "outer" ["x"] [] 1 [.mk "helper" [] [] 2 []]] }

/-- A candidate preserving the top-level function exactly but dropping the
nested helper. -/
def flattenedCandidate : PyCode :=
  { text := "def outer(x):\n    return 1\n",
    parse := some [.mk "outer" ["x"] [] 1 []] }

/-- A failure record for a plain assertion failure: its traceback carries
the assert text but no pytest.raises context. -/
def plainAssertLog : ErrorLog :=
  { test := "test_add", message := "AssertionError: assert 5 == 3",
    traceback := "E  assert 5 == 3" }

/-- The shape of the failed-gate result the runner substitutes for every
failure mode: zero passed, one failed, one total, one error record. -/
def failGateShape (r : TestRunResult) : Prop :=
  r.passed_count = 0 ∧ r.failed_count = 1 ∧ r.total_count = 1 ∧
    r.error_logs.length = 1

end Swarm

namespace Swarm

/-! ## Lemmas about the orchestrator loop -/

theorem runLoop_iterations_le (threshold : ℚ) (maxIterations : ℕ) (env : OrchEnv)
    (nfiles : ℕ) :
    ∀ fuel iter bugs, iter + fuel = maxIterations + 1 →
      (runLoop threshold maxIterations env nfiles fuel iter bugs).iterations_used ≤
        maxIterations := by
  intro fuel
  induction fuel with
  | zero => intro iter bugs _; simp [runLoop]
  | succ fuel ih =>
    intro iter bugs hsum
    simp only [runLoop]
    split
    · simp only []; omega
    · split
      · simp only []; omega
      · exact ih (iter + 1) _ (by omega)

theorem runLoop_first_all_pass (threshold : ℚ) (maxIterations : ℕ) (env : OrchEnv)
    (nfiles : ℕ) :
    ∀ fuel iter bugs i, iter + fuel = maxIterations + 1 → iter ≤ i →
      i ≤ maxIterations → allTestsPass (env.validation i) →
      (∀ j, iter ≤ j → j < i → ¬ allTestsPass (env.validation j)) →
      (runLoop threshold maxIterations env nfiles fuel iter bugs).success = true ∧
      (runLoop threshold maxIterations env nfiles fuel iter bugs).iterations_used = i ∧
      (runLoop threshold maxIterations env nfiles fuel iter bugs).reason =
        .allTestsPassed := by
  intro fuel
  induction fuel with
  | zero => intro iter bugs i hsum hle hmax _ _; omega
  | succ fuel ih =>
    intro iter bugs i hsum hle hmax hpass hbefore
    by_cases hi : iter = i
    · subst hi
      have hp : 0 < (env.validation iter).tests_total ∧
          (env.validation iter).tests_passed = (env.validation iter).tests_total := hpass
      simp only [runLoop]
      rw [if_pos hp]
      exact ⟨rfl, rfl, rfl⟩
    · have hlt : iter < i := lt_of_le_of_ne hle hi
      have hn : ¬ (0 < (env.validation iter).tests_total ∧
          (env.validation iter).tests_passed = (env.validation iter).tests_total) :=
        hbefore iter le_rfl hlt
      simp only [runLoop]
      rw [if_neg hn, if_neg (show ¬ iter = maxIterations by omega)]
      exact ih (iter + 1) _ i (by omega) (by omega) hmax hpass
        (fun j hj hji => hbefore j (by omega) hji)

theorem runLoop_no_all_pass (threshold : ℚ) (maxIterations : ℕ) (env : OrchEnv)
    (nfiles : ℕ) :
    ∀ fuel iter bugs, iter + fuel = maxIterations + 1 → 1 ≤ fuel →
      (∀ j, iter ≤ j → j ≤ maxIterations → ¬ allTestsPass (env.validation j)) →
      (runLoop threshold maxIterations env nfiles fuel iter bugs).iterations_used =
          maxIterations ∧
      (runLoop threshold maxIterations env nfiles fuel iter bugs).success =
          (evaluateSuccess threshold (env.validation maxIterations)).1 ∧
      (runLoop threshold maxIterations env nfiles fuel iter bugs).reason =
          .eval (evaluateSuccess threshold (env.validation maxIterations)).2 := by
  intro fuel
  induction fuel with
  | zero => intro iter bugs _ h1 _; omega
  | succ fuel ih =>
    intro iter bugs hsum _ hnone
    have hiter : iter ≤ maxIterations := by omega
    have hn : ¬ (0 < (env.validation iter).tests_total ∧
        (env.validation iter).tests_passed = (env.validation iter).tests_total) :=
      hnone iter le_rfl hiter
    simp only [runLoop]
    rw [if_neg hn]
    by_cases hlast : iter = maxIterations
    · subst hlast
      rw [if_pos rfl]
      exact ⟨rfl, rfl, rfl⟩
    · rw [if_neg hlast]
      refine ih (iter + 1) _ (by omega) (by omega)
        (fun j hj hjm => hnone j (by omega) hjm)

/-- Claim C2: the outer loop executes at most maxIterations iterations and
iterations_used ≤ maxIterations in the returned report; the run returns
success immediately on the first iteration whose validation has all tests
passing, reporting that iteration; otherwise, when files were discovered
and no iteration has all tests passing, the run ends on the final allowed
iteration with the verdict of evaluateSuccess. -/
theorem c2_run_iteration_bounds (threshold : ℚ) (maxIterations : ℕ)
    (env : OrchEnv) (d : TargetDir) :
    (run threshold maxIterations env d).report.iterations_used ≤ maxIterations ∧
    (listPythonFiles (cleanupTestDirectory env.rmtreeOk d) ≠ [] →
      (∀ i, 1 ≤ i → i ≤ maxIterations → allTestsPass (env.validation i) →
        (∀ j, 1 ≤ j → j < i → ¬ allTestsPass (env.validation j)) →
        (run threshold maxIterations env d).report.success = true ∧
        (run threshold maxIterations env d).report.iterations_used = i) ∧
      (1 ≤ maxIterations →
        (∀ j, 1 ≤ j → j ≤ maxIterations → ¬ allTestsPass (env.validation j)) →
        (run threshold maxIterations env d).report.iterations_used = maxIterations ∧
        (run threshold maxIterations env d).report.success =
          (evaluateSuccess threshold (env.validation maxIterations)).1)) := by
  constructor
  · by_cases hfiles : listPythonFiles (cleanupTestDirectory env.rmtreeOk d) = []
    · simp only [run]
      rw [if_pos hfiles]
      exact Nat.zero_le _
    · simp only [run]
      rw [if_neg hfiles]
      exact runLoop_iterations_le threshold maxIterations env _ maxIterations 1 0
        (by omega)
  · intro hfiles
    constructor
    · intro i h1 hm hpass hbefore
      simp only [run]
      rw [if_neg hfiles]
      have h := runLoop_first_all_pass threshold maxIterations env
        (listPythonFiles (cleanupTestDirectory env.rmtreeOk d)).length
        maxIterations 1 0 i (by omega) h1 hm hpass
        (fun j hj hji => hbefore j hj hji)
      exact ⟨h.1, h.2.1⟩
    · intro hmax hnone
      simp only [run]
      rw [if_neg hfiles]
      have h := runLoop_no_all_pass threshold maxIterations env
        (listPythonFiles (cleanupTestDirectory env.rmtreeOk d)).length
        maxIterations 1 0 (by omega) (by omega)
        (fun j hj hjm => hnone j hj hjm)
      exact ⟨h.1, h.2.1⟩

/-- Witness for C2: with one discovered file, threshold 4/5, three allowed
iterations and a validation whose first iteration passes all tests, the run
succeeds with iterations_used = 1. -/
theorem c2_run_iteration_bounds_witness :
    (run (4/5) 3 sampleEnvFirstPass sampleDirOneFile).report.success = true ∧
    (run (4/5) 3 sampleEnvFirstPass sampleDirOneFile).report.iterations_used = 1 :=
  ((c2_run_iteration_bounds (4/5) 3 sampleEnvFirstPass sampleDirOneFile).2
      (by decide)).1 1 le_rfl (by omega) (by decide)
    (fun j h1 hj => absurd (lt_of_le_of_lt h1 hj) (lt_irrefl 1))

/-- Claim C10: at the start of every run, before discovery and before any
backup, the tests subdirectory is deleted when present and deletion
succeeds: the discovered set and the backed-up set are computed from the
directory without its tests subdirectory, so pre-existing test files there
are destroyed without backup; when deletion fails the failure is swallowed
and the run continues with the unchanged directory. -/
theorem c10_cleanup_before_discovery_and_backup (threshold : ℚ)
    (maxIterations : ℕ) (env : OrchEnv) (d : TargetDir) :
    (d.testsDir ≠ none → env.rmtreeOk = true →
      (cleanupTestDirectory env.rmtreeOk d).testsDir = none ∧
      (run threshold maxIterations env d).discovered =
        listPythonFiles { srcFiles := d.srcFiles, testsDir := none } ∧
      ((run threshold maxIterations env d).backedUp = [] ∨
        (run threshold maxIterations env d).backedUp =
          (run threshold maxIterations env d).discovered)) ∧
    (env.rmtreeOk = false →
      (run threshold maxIterations env d).discovered = listPythonFiles d ∧
      (run threshold maxIterations env d).report.iterations_used ≤ maxIterations) := by
  constructor
  · intro hts hok
    have hclean : cleanupTestDirectory env.rmtreeOk d =
        { srcFiles := d.srcFiles, testsDir := none } := by
      unfold cleanupTestDirectory
      cases h : d.testsDir with
      | none => exact absurd h hts
      | some ts => simp [hok]
    refine ⟨by rw [hclean], ?_, ?_⟩
    · simp only [run, hclean]
      split <;> rfl
    · simp only [run, hclean]
      split
      · left; rfl
      · right; rfl
  · intro hno
    have hclean : cleanupTestDirectory env.rmtreeOk d = d := by
      unfold cleanupTestDirectory
      cases h : d.testsDir with
      | none => rfl
      | some ts => simp [hno]
    constructor
    · simp only [run, hclean]
      split <;> rfl
    · simp only [run, hclean]
      split
      · simp only []; omega
      · exact runLoop_iterations_le threshold maxIterations env _ maxIterations 1 0
          (by omega)

/-- Witness for C10: a directory with one source file and a pre-existing
tests subdirectory, successful deletion: the discovered set is the source
file alone and the backups are empty or equal to the discovered set. -/
theorem c10_cleanup_before_discovery_and_backup_witness :
    (cleanupTestDirectory true sampleDirWithTests).testsDir = none ∧
    (run (4/5) 3 sampleEnvAlwaysFail sampleDirWithTests).discovered =
      listPythonFiles { srcFiles := sampleDirWithTests.srcFiles, testsDir := none } ∧
    ((run (4/5) 3 sampleEnvAlwaysFail sampleDirWithTests).backedUp = [] ∨
      (run (4/5) 3 sampleEnvAlwaysFail sampleDirWithTests).backedUp =
        (run (4/5) 3 sampleEnvAlwaysFail sampleDirWithTests).discovered) :=
  (c10_cleanup_before_discovery_and_backup (4/5) 3 sampleEnvAlwaysFail
      sampleDirWithTests).1 (by simp [sampleDirWithTests]) rfl

/-- Claim C1: for every threshold t in [0,1] and every validation report,
evaluateSuccess fails with the syntax-errors reason when the failed gate is
"syntax"; otherwise it succeeds with the no-tests warning reason when
tests_total = 0; otherwise it succeeds iff tests_passed / tests_total ≥ t,
and the reason carries the rate and the threshold. -/
theorem c1_evaluate_success_spec (t : ℚ) (v : ValidationReport)
    (ht0 : 0 ≤ t) (ht1 : t ≤ 1) :
    (v.gate_failed = some "syntax" →
      evaluateSuccess t v = (false, .syntaxErrors)) ∧
    (v.gate_failed ≠ some "syntax" → v.tests_total = 0 →
      evaluateSuccess t v = (true, .noTestsAvailable)) ∧
    (v.gate_failed ≠ some "syntax" → v.tests_total ≠ 0 →
      (((evaluateSuccess t v).1 = true ↔
          t ≤ (v.tests_passed : ℚ) / (v.tests_total : ℚ)) ∧
        ((evaluateSuccess t v).2 =
            .thresholdMet ((v.tests_passed : ℚ) / (v.tests_total : ℚ)) t ∨
          ∃ n, (evaluateSuccess t v).2 =
            .thresholdNotMet ((v.tests_passed : ℚ) / (v.tests_total : ℚ)) t n))) := by
  refine ⟨?_, ?_, ?_⟩
  · intro h
    simp [evaluateSuccess, h]
  · intro h h0
    simp [evaluateSuccess, h, h0]
  · intro h h0
    constructor
    · by_cases hle : t ≤ (v.tests_passed : ℚ) / (v.tests_total : ℚ) <;>
        simp [evaluateSuccess, h, h0, hle]
    · by_cases hle : t ≤ (v.tests_passed : ℚ) / (v.tests_total : ℚ)
      · left; simp [evaluateSuccess, h, h0, hle]
      · right
        refine ⟨pyInt (t * (v.tests_total : ℚ)) - (v.tests_passed : ℤ), ?_⟩
        simp [evaluateSuccess, h, h0, hle]

/-- Witness for C1 at a concrete threshold and report: 4 of 5 tests at
threshold 0.8 succeeds with the rate and threshold in the reason. -/
theorem c1_evaluate_success_spec_witness :
    ((evaluateSuccess (4/5) ⟨some "tests", 4, 5, 1⟩).1 = true ↔
        (4 : ℚ)/5 ≤ ((4 : ℕ) : ℚ) / ((5 : ℕ) : ℚ)) ∧
      ((evaluateSuccess (4/5) ⟨some "tests", 4, 5, 1⟩).2 =
          .thresholdMet (((4 : ℕ) : ℚ) / ((5 : ℕ) : ℚ)) (4/5) ∨
        ∃ n, (evaluateSuccess (4/5) ⟨some "tests", 4, 5, 1⟩).2 =
          .thresholdNotMet (((4 : ℕ) : ℚ) / ((5 : ℕ) : ℚ)) (4/5) n) :=
  (c1_evaluate_success_spec (4/5) ⟨some "tests", 4, 5, 1⟩
      (by norm_num) (by norm_num)).2.2
    (by simp) (by simp)

/-! ## The retry loop: write discipline and call counting -/

theorem fixAttempt_write_false (orig : PyCode) (out : OracleOutcome)
    (isLast : Bool) (c : PyCode)
    (h : fixAttempt orig out isLast = .write c false) : c = orig := by
  cases out with
  | raised =>
      unfold fixAttempt at h
      cases isLast <;> simp at h
  | ok cand =>
      unfold fixAttempt at h
      simp only [] at h
      by_cases h1 : validateCodeCompleteness cand orig = false
      · rw [if_pos h1] at h
        by_cases h2 : isLast = false
        · rw [if_pos h2] at h; cases h
        · rw [if_neg h2] at h
          by_cases h3 : (validatePythonSyntax orig).1 = false
          · rw [if_pos h3] at h; cases h
          · rw [if_neg h3] at h
            by_cases h4 : (validateSignaturesPreserved orig orig).1 = false
            · rw [if_pos h4] at h; injection h with h5 h6; exact h5.symm
            · rw [if_neg h4] at h; injection h with h5 h6; exact h5.symm
      · rw [if_neg h1] at h
        by_cases h2 : (validatePythonSyntax cand).1 = false
        · rw [if_pos h2] at h
          by_cases h3 : isLast = false
          · rw [if_pos h3] at h; cases h
          · rw [if_neg h3] at h; cases h
        · rw [if_neg h2] at h
          by_cases h3 : (validateSignaturesPreserved orig cand).1 = false
          · rw [if_pos h3] at h
            by_cases h4 : isLast = false
            · rw [if_pos h4] at h; cases h
            · rw [if_neg h4] at h; injection h with h5 h6; exact h5.symm
          · rw [if_neg h3] at h
            injection h with h5 h6
            exact Bool.noConfusion h6

theorem fixFileAux_written_original (orig : PyCode) (oracle : ℕ → OracleOutcome)
    (m : ℕ) :
    ∀ fuel attempt,
      (fixFileAux orig oracle m fuel attempt).acceptedAttempt = none →
      ∀ c, (fixFileAux orig oracle m fuel attempt).written = some c → c = orig := by
  intro fuel
  induction fuel with
  | zero => intro attempt _ c hc; simp [fixFileAux] at hc
  | succ fuel ih =>
    intro attempt hacc c hc
    simp only [fixFileAux] at hacc hc
    cases hstep : fixAttempt orig (oracle attempt) (decide (m ≤ attempt)) with
    | retry =>
        rw [hstep] at hacc hc
        simp only [] at hacc hc
        exact ih (attempt + 1) hacc c hc
    | noWrite => rw [hstep] at hc; simp at hc
    | write c' accepted =>
        rw [hstep] at hacc hc
        simp only [] at hacc hc
        cases accepted with
        | true => simp at hacc
        | false =>
            simp only [Option.some.injEq] at hc
            subst hc
            exact fixAttempt_write_false orig (oracle attempt) _ c' hstep

/-- Claim C3 is false as stated: a file whose original content does not
parse and whose candidates all fail the completeness gate ends the
iteration with zero writes — not exactly one — because the final attempt's
fallback breaks out of the loop at the syntax check. -/
theorem c3_zero_writes_counterexample :
    (fixFile brokenOriginal alwaysTruncatedOracle 3).acceptedAttempt = none ∧
    (fixFile brokenOriginal alwaysTruncatedOracle 3).written = none :=
  ⟨rfl, rfl⟩

/-- Claim C3 (amended): if no retry attempt for a file passes the local
gates, the file's final on-disk content equals its pre-iteration content
exactly — either by writing the original back (the fallback write) or by
writing nothing at all; at most one write happens per file per iteration,
but the write count can be zero (final-attempt syntax failure or an
attempt exception). -/
theorem c3_retry_exhaustion_restores_original (orig : PyCode)
    (oracle : ℕ → OracleOutcome) (maxRetries : ℕ)
    (h : (fixFile orig oracle maxRetries).acceptedAttempt = none) :
    fixFinalContent orig (fixFile orig oracle maxRetries) = orig := by
  unfold fixFinalContent
  cases hw : (fixFile orig oracle maxRetries).written with
  | none => rfl
  | some c =>
      exact fixFileAux_written_original orig oracle maxRetries (maxRetries + 1) 0 h c hw

/-- Witness for the amended C3: the broken original with always-truncated
candidates ends the iteration with its content untouched. -/
theorem c3_retry_exhaustion_restores_original_witness :
    fixFinalContent brokenOriginal (fixFile brokenOriginal alwaysTruncatedOracle 3) =
      brokenOriginal :=
  c3_retry_exhaustion_restores_original brokenOriginal alwaysTruncatedOracle 3 rfl

theorem fixFileAux_calls_le (orig : PyCode) (oracle : ℕ → OracleOutcome) (m : ℕ) :
    ∀ fuel attempt, (fixFileAux orig oracle m fuel attempt).oracleCalls ≤ fuel := by
  intro fuel
  induction fuel with
  | zero => intro attempt; simp [fixFileAux]
  | succ fuel ih =>
    intro attempt
    simp only [fixFileAux]
    cases hstep : fixAttempt orig (oracle attempt) (decide (m ≤ attempt)) with
    | retry => exact Nat.succ_le_succ (ih (attempt + 1))
    | noWrite =>
        show (1 : ℕ) ≤ fuel + 1
        omega
    | write c accepted =>
        show (1 : ℕ) ≤ fuel + 1
        omega

theorem fixFileAux_accepted_calls (orig : PyCode) (oracle : ℕ → OracleOutcome)
    (m : ℕ) :
    ∀ fuel attempt k,
      (fixFileAux orig oracle m fuel attempt).acceptedAttempt = some k →
      attempt ≤ k ∧
        (fixFileAux orig oracle m fuel attempt).oracleCalls + attempt = k + 1 := by
  intro fuel
  induction fuel with
  | zero => intro attempt k h; simp [fixFileAux] at h
  | succ fuel ih =>
    intro attempt k h
    simp only [fixFileAux] at h ⊢
    cases hstep : fixAttempt orig (oracle attempt) (decide (m ≤ attempt)) with
    | retry =>
        rw [hstep] at h
        simp only [] at h
        obtain ⟨h1, h2⟩ := ih (attempt + 1) k h
        refine ⟨by omega, ?_⟩
        show (fixFileAux orig oracle m fuel (attempt + 1)).oracleCalls + 1 + attempt = k + 1
        omega
    | noWrite =>
        rw [hstep] at h
        simp at h
    | write c accepted =>
        rw [hstep] at h
        simp only [] at h
        cases accepted with
        | false => simp at h
        | true =>
            simp at h
            subst h
            refine ⟨le_rfl, ?_⟩
            show (1 : ℕ) + attempt = attempt + 1
            omega

/-- Claim C6: for every file, the retry loop makes at most maxRetries + 1
Oracle calls — one per attempt — and when an attempt's candidate passes
every local gate the loop stops there, having made exactly that attempt
index plus one calls. -/
theorem c6_oracle_call_bound (orig : PyCode) (oracle : ℕ → OracleOutcome)
    (maxRetries : ℕ) :
    (fixFile orig oracle maxRetries).oracleCalls ≤ maxRetries + 1 ∧
    ∀ k, (fixFile orig oracle maxRetries).acceptedAttempt = some k →
      (fixFile orig oracle maxRetries).oracleCalls = k + 1 := by
  constructor
  · show (fixFileAux orig oracle maxRetries (maxRetries + 1) 0).oracleCalls ≤
      maxRetries + 1
    exact fixFileAux_calls_le orig oracle maxRetries (maxRetries + 1) 0
  · intro k h
    have h2 := fixFileAux_accepted_calls orig oracle maxRetries (maxRetries + 1) 0 k h
    show (fixFileAux orig oracle maxRetries (maxRetries + 1) 0).oracleCalls = k + 1
    omega

/-- Witness for C6: an oracle whose attempt 0 passes the gates leads to
exactly one Oracle call. -/
theorem c6_oracle_call_bound_witness :
    (fixFile goodAddCode immediateOracle 3).acceptedAttempt = some 0 ∧
    (fixFile goodAddCode immediateOracle 3).oracleCalls = 0 + 1 :=
  ⟨rfl, (c6_oracle_call_bound goodAddCode immediateOracle 3).2 0 rfl⟩

/-! ## The completeness gate (C4) -/

/-- Claim C4 is false as stated: a candidate shorter than 70 percent of
the original — but above the 50-character floor, parseable, with the same
functions and a clean ending — is accepted by the gate, although the claim
requires rejection; no relative-length check exists in the gate. -/
theorem c4_relative_length_counterexample :
    validateCodeCompleteness shortCandidate paddedOriginal = true ∧
    10 * shortCandidate.text.length < 7 * paddedOriginal.text.length :=
  ⟨rfl, by decide⟩

/-- Claim C4 (amended): the completeness gate rejects a candidate iff its
trailing-whitespace-stripped text ends with a blacklisted dangling token,
or that stripped text is shorter than 50 characters, or the candidate
contains strictly fewer non-underscore-prefixed function definitions (at
any nesting depth, per AST walk, with a regex fallback on parse failure)
than the original, or it fails to compile.  The gate has no
70-percent-of-original length condition. -/
theorem c4_completeness_gate_iff (code originalCode : PyCode) :
    validateCodeCompleteness code originalCode = false ↔
      (suspiciousEndings.any (fun e => pyEndsWith (pyRstrip code.text) e) = true ∨
        (pyRstrip code.text).length < 50 ∨
        (getFunctionListFromCode code).length <
          (getFunctionListFromCode originalCode).length ∨
        code.parse = none) := by
  unfold validateCodeCompleteness
  by_cases h1 : suspiciousEndings.any (fun e => pyEndsWith (pyRstrip code.text) e) = true
  · simp [h1]
  · by_cases h2 : (pyRstrip code.text).length < 50
    · simp [h1, h2]
    · by_cases h3 : (getFunctionListFromCode code).length <
          (getFunctionListFromCode originalCode).length
      · simp [h1, h2, h3]
      · cases hp : code.parse with
        | none => simp [h1, h2, h3, hp]
        | some m => simp [h1, h2, h3, hp]

/-! ## The signature gate (C5) -/

/-- Claim C5 is false as stated: the original has a non-private function
nested inside a top-level one; the candidate keeps every non-private
top-level function with an identical parameter list, yet the check
reports a violation, because ast.walk collects nested definitions too. -/
theorem c5_nested_function_counterexample :
    (validateSignaturesPreserved nestedOriginal flattenedCandidate).1 = false ∧
    (∀ f ∈ nestedOriginal.parse.getD [], pyStartsWith f.name "_" = false →
      ∃ g ∈ flattenedCandidate.parse.getD [],
        g.name = f.name ∧ g.params = f.params) := by
  constructor
  · rfl
  · intro f hf _
    simp only [nestedOriginal, Option.getD_some, List.mem_singleton] at hf
    subst hf
    exact ⟨.mk "outer" ["x"] [] 1 [], by simp [flattenedCandidate], rfl, rfl⟩

theorem signatureViolation1_ne_nil (fixedSigs : List (String × FuncSig))
    (kv : String × FuncSig) :
    signatureViolation1 fixedSigs kv ≠ [] ↔
      (pyStartsWith kv.1 "_" = false ∧
        (dictFind fixedSigs kv.1 = none ∨
          ∃ s, dictFind fixedSigs kv.1 = some s ∧ kv.2.params ≠ s.params)) := by
  unfold signatureViolation1
  by_cases hp : pyStartsWith kv.1 "_" = true
  · simp [hp]
  · have hp2 : pyStartsWith kv.1 "_" = false := by
      simpa using hp
    cases hf : dictFind fixedSigs kv.1 with
    | none => simp [hp2, hf]
    | some s =>
      by_cases hparams : kv.2.params = s.params
      · simp [hp2, hf, hparams]
      · simp [hp2, hf, hparams]

/-- Claim C5 (amended): the signature check reports a violation iff some
function collected from the original by ast.walk — at any nesting depth —
whose name does not start with an underscore is absent from the
candidate's walked signature dict, or is present with a different ordered
parameter-name list; in particular a candidate that drops or reorders a
parameter of such a function is always rejected. -/
theorem c5_signature_gate_iff (originalCode fixedCode : PyCode) :
    (validateSignaturesPreserved originalCode fixedCode).1 = false ↔
      ∃ kv ∈ extractFunctionSignatures originalCode,
        pyStartsWith kv.1 "_" = false ∧
        (dictFind (extractFunctionSignatures fixedCode) kv.1 = none ∨
          ∃ s, dictFind (extractFunctionSignatures fixedCode) kv.1 = some s ∧
            kv.2.params ≠ s.params) := by
  unfold validateSignaturesPreserved
  simp only []
  rw [List.isEmpty_eq_false]
  unfold signatureViolations
  have hnil : (extractFunctionSignatures originalCode).flatMap
      (signatureViolation1 (extractFunctionSignatures fixedCode)) = [] ↔
      ∀ kv ∈ extractFunctionSignatures originalCode,
        signatureViolation1 (extractFunctionSignatures fixedCode) kv = [] :=
    List.flatMap_eq_nil_iff
  rw [ne_eq, hnil]
  push_neg
  constructor
  · rintro ⟨kv, hmem, hne⟩
    exact ⟨kv, hmem, (signatureViolation1_ne_nil _ kv).mp hne⟩
  · rintro ⟨kv, hmem, hcond⟩
    exact ⟨kv, hmem, (signatureViolation1_ne_nil _ kv).mpr hcond⟩

/-! ## The failure classifier (C7) -/

/-- Claim C7 evidence: a record whose diagnostic contains the
assertion-failure marker — and whose target function is extractable from
the test identifier — receives no category and no directive at all when
its traceback lacks the pytest.raises text, because the assert, import
and unknown arms sit inside the pytest.raises branch in the source. -/
theorem c7_no_directive_without_raises :
    classifyTestError plainAssertLog = none ∧
    strContainsSub
      (pyLower (plainAssertLog.message ++ " " ++ plainAssertLog.traceback))
      "assert" = true ∧
    extractTargetFunction plainAssertLog.test = "add" :=
  ⟨by decide, by decide, by decide⟩

/-! ## The fix bookkeeping (C8) -/

/-- Claim C8 is false as stated: a file whose every attempt fails the
completeness gate falls back to its original content, which is written
back unchanged — and the file is nevertheless appended to files_modified
and its two findings are added to bugs_fixed. -/
theorem c8_fallback_counted_as_fixed :
    (fixerFix onePlanTwoIssues readGoodAdd alwaysTruncatedOracleB 3).files_modified =
      ["f.py"] ∧
    (fixerFix onePlanTwoIssues readGoodAdd alwaysTruncatedOracleB 3).bugs_fixed = 2 ∧
    (fixFile goodAddCode (alwaysTruncatedOracleB "f.py") 3).acceptedAttempt = none ∧
    fixFinalContent goodAddCode
      (fixFile goodAddCode (alwaysTruncatedOracleB "f.py") 3) = goodAddCode :=
  ⟨rfl, rfl, rfl, rfl⟩

theorem fixerFix_foldl (readFile : String → Option PyCode)
    (oracle : String → ℕ → OracleOutcome) (maxRetries : ℕ) :
    ∀ (l : List FileIssue) (acc : FixResult),
      (l.foldl (fixerFixStep readFile oracle maxRetries) acc).files_modified =
        acc.files_modified ++
          (l.filter (fileWritten readFile oracle maxRetries)).map
            (fun fi => fi.file) ∧
      (l.foldl (fixerFixStep readFile oracle maxRetries) acc).bugs_fixed =
        acc.bugs_fixed +
          ((l.filter (fileWritten readFile oracle maxRetries)).map
            (fun fi => fi.issues.length)).sum := by
  intro l
  induction l with
  | nil => intro acc; simp
  | cons fi rest ih =>
    intro acc
    rw [List.foldl_cons, List.filter_cons]
    by_cases h1 : fi.file = "" ∨ fi.issues = []
    · have hw : fileWritten readFile oracle maxRetries fi = false := by
        unfold fileWritten; rw [if_pos h1]
      have hstep : fixerFixStep readFile oracle maxRetries acc fi = acc := by
        unfold fixerFixStep; rw [if_pos h1]
      rw [hstep, hw]
      simpa using ih acc
    · cases hread : readFile fi.file with
      | none =>
          have hw : fileWritten readFile oracle maxRetries fi = false := by
            unfold fileWritten; rw [if_neg h1, hread]
          have hstep : fixerFixStep readFile oracle maxRetries acc fi = acc := by
            unfold fixerFixStep; rw [if_neg h1, hread]
          rw [hstep, hw]
          simpa using ih acc
      | some orig =>
          cases hwr : (fixFile orig (oracle fi.file) maxRetries).written with
          | none =>
              have hw : fileWritten readFile oracle maxRetries fi = false := by
                unfold fileWritten
                rw [if_neg h1, hread]
                simp [hwr]
              have hstep : fixerFixStep readFile oracle maxRetries acc fi = acc := by
                unfold fixerFixStep
                rw [if_neg h1, hread]
                simp [hwr]
              rw [hstep, hw]
              simpa using ih acc
          | some c =>
              have hw : fileWritten readFile oracle maxRetries fi = true := by
                unfold fileWritten
                rw [if_neg h1, hread]
                simp [hwr]
              have hstep : fixerFixStep readFile oracle maxRetries acc fi =
                  { files_modified := acc.files_modified ++ [fi.file],
                    bugs_fixed := acc.bugs_fixed + fi.issues.length } := by
                unfold fixerFixStep
                rw [if_neg h1, hread]
                simp [hwr]
              rw [hstep, hw]
              obtain ⟨ha, hb⟩ := ih
                { files_modified := acc.files_modified ++ [fi.file],
                  bugs_fixed := acc.bugs_fixed + fi.issues.length }
              refine ⟨?_, ?_⟩
              · rw [ha]
                simp
              · rw [hb]
                simp
                omega

/-- Claim C8 (amended): a file is appended to files_modified, and its
issue count added to bugs_fixed, exactly when a final write happened for
it — including the no-op fallback write of the original after retry
exhaustion; the counts never compare the written content with the
original, so only the no-write paths (final syntax failure, attempt
exception, unreadable file, empty entry) are excluded. -/
theorem c8_counts_follow_writes (plan : FixPlan)
    (readFile : String → Option PyCode) (oracle : String → ℕ → OracleOutcome)
    (maxRetries : ℕ) :
    (fixerFix plan readFile oracle maxRetries).files_modified =
      (plan.issues.filter (fileWritten readFile oracle maxRetries)).map
        (fun fi => fi.file) ∧
    (fixerFix plan readFile oracle maxRetries).bugs_fixed =
      ((plan.issues.filter (fileWritten readFile oracle maxRetries)).map
        (fun fi => fi.issues.length)).sum := by
  have h := fixerFix_foldl readFile oracle maxRetries plan.issues
    { files_modified := [], bugs_fixed := 0 }
  simpa [fixerFix] using h

/-! ## The pytest wrapper (C9) -/

/-- Claim C9: run_pytest_on_directory is total, invokes pytest at most
once, and turns a missing directory, a timeout, a missing pytest
executable, or any internal exception (including a malformed report) into
a failed-gate result of zero passed, one failed, one total with a single
error record — never an exception. -/
theorem c9_run_pytest_failure_modes (directory : String) (dirExists : Bool)
    (sub : SubprocessOutcome) (timeout : ℕ) :
    (runPytestOnDirectory directory dirExists sub timeout).2 ≤ 1 ∧
    (dirExists = false →
      (runPytestOnDirectory directory dirExists sub timeout).2 = 0 ∧
      failGateShape (runPytestOnDirectory directory dirExists sub timeout).1) ∧
    (dirExists = true →
      (sub = .timeoutExpired ∨ sub = .pytestExecutableMissing ∨
        (∃ msg, sub = .internalError msg) ∨
        (∃ e stdout stderr rc,
          sub = .completed (some (.error e)) stdout stderr rc)) →
      failGateShape (runPytestOnDirectory directory dirExists sub timeout).1) := by
  refine ⟨?_, ?_, ?_⟩
  · cases hd : dirExists with
    | false => simp [runPytestOnDirectory]
    | true =>
        cases sub with
        | timeoutExpired => simp [runPytestOnDirectory]
        | pytestExecutableMissing => simp [runPytestOnDirectory]
        | internalError msg => simp [runPytestOnDirectory]
        | completed rf stdout stderr rc =>
            cases rf with
            | none => simp [runPytestOnDirectory]
            | some ex => cases ex <;> simp [runPytestOnDirectory]
  · intro hd
    subst hd
    simp [runPytestOnDirectory, failGateShape]
  · intro hd hsub
    subst hd
    rcases hsub with h | h | ⟨msg, h⟩ | ⟨e, so, se, rc, h⟩ <;> subst h <;>
      simp [runPytestOnDirectory, failGateShape]

/-- Witness for C9: a timeout with an existing directory yields the
failed-gate shape. -/
theorem c9_run_pytest_failure_modes_witness :
    failGateShape (runPytestOnDirectory "proj" true .timeoutExpired 60).1 :=
  (c9_run_pytest_failure_modes "proj" true .timeoutExpired 60).2.2 rfl (Or.inl rfl)

end Swarm
